import Mathlib

/-!
Shallow embedding of the analytical pipeline of the residential smart-meter
dashboard (src/streamlit_app.py): time-series extraction per state,
Prophet-based forecasting with the month-based filter of line 102,
IsolationForest anomaly labelling of lines 141-143, the report mean of
line 115, the alert composition of lines 121-124, and the per-household
cost summary of lines 16-27 and 72-84.

External library calls (Prophet, scikit-learn, pandas, numpy) are modelled
from their documented behaviour: only the parts the program relies on
(row-count validation, future-dataframe generation, percentile thresholding,
label shape) are embedded, and the opaque numeric model functions (the fitted
trend and the isolation-forest score) are abstracted as parameters.
-/

namespace SmartMeter

/-- Calendar date with year, month and day fields, mirroring the pandas
timestamps in the Date column of the dataset. -/
structure Date where
  year : ℕ
  month : ℕ
  day : ℕ
deriving DecidableEq

/-- Strict calendar order on dates: lexicographic on year, month, day. -/
def Date.lt (a b : Date) : Prop :=
  a.year < b.year ∨ (a.year = b.year ∧ (a.month < b.month ∨ (a.month = b.month ∧ a.day < b.day)))

instance (a b : Date) : Decidable (Date.lt a b) := by
  unfold Date.lt
  exact inferInstance

/-- Whether a year is a Gregorian leap year. -/
def isLeap (y : ℕ) : Bool :=
  y % 4 == 0 && (y % 100 != 0 || y % 400 == 0)

/-- Number of days in a month of a given year. -/
def daysInMonth (y m : ℕ) : ℕ :=
  if m = 2 then (if isLeap y then 29 else 28)
  else if m = 4 ∨ m = 6 ∨ m = 9 ∨ m = 11 then 30
  else 31

/-- The calendar day after a given date. -/
def nextDate (d : Date) : Date :=
  if d.day < daysInMonth d.year d.month then ⟨d.year, d.month, d.day + 1⟩
  else if d.month < 12 then ⟨d.year, d.month + 1, 1⟩
  else ⟨d.year + 1, 1, 1⟩

/-- The n consecutive calendar days following a given date. -/
def futureDates (last : Date) : ℕ → List Date
  | 0 => []
  | n + 1 => nextDate last :: futureDates (nextDate last) n

/-- Maximum of a list of dates, none when the list is empty. -/
def maxDate : List Date → Option Date
  | [] => none
  | d :: ds => some (ds.foldl (fun a b => if Date.lt a b then b else a) d)

/-- One row of the consumption table: Date, State and
Residential_Consumption_kWh columns. -/
structure ConsumptionRecord where
  date : Date
  state : String
  kwh : ℚ
deriving DecidableEq

/-- Models line 97: the full table filtered to the selected state, keeping the
date and consumption columns, in table order. The variable is named ts in the
source. -/
def ts (df : List ConsumptionRecord) (state : String) : List (Date × ℚ) :=
  (df.filter fun r => r.state == state).map fun r => (r.date, r.kwh)

namespace Prophet

/-- Models the row-count validation of the fit method of the Prophet library
(called at line 99): fitting raises a ValueError when the history has fewer
than 2 rows, and otherwise proceeds. The numeric fitting itself is opaque. -/
def fit (history : List (Date × ℚ)) : Except String (List (Date × ℚ)) :=
  if history.length < 2 then Except.error "Dataframe has less than 2 non-NaN rows."
  else Except.ok history

/-- Models make_future_dataframe at line 100 with its default
include_history: the historical dates followed by the next periods
consecutive days after the latest historical date. -/
def make_future_dataframe (history : List (Date × ℚ)) (periods : ℕ) : List Date :=
  history.map Prod.fst ++
    (match maxDate (history.map Prod.fst) with
     | some last => futureDates last periods
     | none => [])

/-- Models predict at line 101: one output row per row of the future
dataframe, in order, whose yhat value is the fitted model g evaluated at the
row date. -/
def predict (g : Date → ℚ) (dates : List Date) : List (Date × ℚ) :=
  dates.map fun d => (d, g d)

end Prophet

/-- Models line 102: the forecast rows whose date has month strictly greater
than 6. -/
def forecast_filtered (g : Date → ℚ) (history : List (Date × ℚ)) (periods : ℕ) :
    List (Date × ℚ) :=
  (Prophet.predict g (Prophet.make_future_dataframe history periods)).filter
    fun r => decide (6 < r.1.month)

/-- Models the pandas mean of a numeric series (line 115): the sum divided by
the length; the mean of an empty series is NaN, modelled as none. -/
def seriesMean (xs : List ℚ) : Option ℚ :=
  if xs.isEmpty then none else some (xs.sum / (xs.length : ℚ))

/-- Models line 115: the mean of the Forecast_kWh column of the report built
from the filtered forecast. -/
def avg_forecast (g : Date → ℚ) (history : List (Date × ℚ)) : Option ℚ :=
  seriesMean ((forecast_filtered g history 184).map Prod.snd)

/-- Insert a rational into an already sorted list, keeping it sorted. -/
def insertSorted (x : ℚ) : List ℚ → List ℚ
  | [] => [x]
  | y :: ys => if x ≤ y then x :: y :: ys else y :: insertSorted x ys

/-- Sort a list of rationals in nondecreasing order. -/
def sortQ (xs : List ℚ) : List ℚ :=
  xs.foldr insertSorted []

/-- Floor of a nonnegative rational as a natural number. -/
def floorNat (x : ℚ) : ℕ :=
  (x.num / (x.den : ℤ)).toNat

/-- Models numpy.percentile with the default linear interpolation: the value
at fractional rank q / 100 * (n - 1) of the sorted data. -/
def percentile (q : ℚ) (xs : List ℚ) : ℚ :=
  let s := sortQ xs
  let pos : ℚ := q * ((s.length : ℚ) - 1) / 100
  let lo : ℕ := floorNat pos
  let frac : ℚ := pos - (lo : ℚ)
  let a := s.getD lo 0
  let b := s.getD (lo + 1) a
  a + frac * (b - a)

/-- Constructor arguments of the IsolationForest call. -/
structure IsolationForestParams where
  contamination : ℚ
  random_state : ℕ
deriving DecidableEq

/-- The parameters passed at line 142: contamination 0.03, random_state 42. -/
def anomalyParams : IsolationForestParams :=
  { contamination := 3 / 100, random_state := 42 }

namespace IsolationForest

/-- Models fit_predict of the scikit-learn IsolationForest (line 143): input
validation rejects an empty sample array; otherwise each sample gets an
outlier score (the randomized forest is abstracted as the score parameter,
fixed by the seeded random_state), the offset is the percentile of the scores
at 100 times the contamination, and the label is -1 when the score is below
the offset and 1 otherwise. -/
def fit_predict (score : List ℚ → List ℚ) (contamination : ℚ) (xs : List ℚ) :
    Except String (List ℤ) :=
  if xs.isEmpty then
    Except.error "Found array with 0 sample(s) while a minimum of 1 is required."
  else
    let scores := score xs
    let offset := percentile (100 * contamination) scores
    Except.ok (scores.map fun s => if s < offset then (-1 : ℤ) else 1)

end IsolationForest

/-- Models line 143: the anomaly column assignment attaches the fit_predict
label, computed from the single consumption column, to each row of the state
window, preserving row order. -/
def anomalyRows (score : List ℚ → List ℚ) (window : List (Date × ℚ)) :
    Except String (List (Date × ℚ × ℤ)) :=
  (IsolationForest.fit_predict score anomalyParams.contamination
      (window.map Prod.snd)).map
    fun labels => List.zipWith (fun p l => (p.1, p.2, l)) window labels

/-- Models lines 16-27: the static households dictionary. Python
floor-divides each population by the float 4.5. -/
def households_per_state : List (String × ℚ) :=
  [("Uttar Pradesh", ((⌊(250000000 : ℚ) / (9 / 2)⌋ : ℤ) : ℚ)),
   ("Maharashtra", ((⌊(125000000 : ℚ) / (9 / 2)⌋ : ℤ) : ℚ)),
   ("Bihar", ((⌊(130000000 : ℚ) / (9 / 2)⌋ : ℤ) : ℚ)),
   ("West Bengal", ((⌊(100000000 : ℚ) / (9 / 2)⌋ : ℤ) : ℚ)),
   ("Madhya Pradesh", ((⌊(85000000 : ℚ) / (9 / 2)⌋ : ℤ) : ℚ)),
   ("Tamil Nadu", ((⌊(80000000 : ℚ) / (9 / 2)⌋ : ℤ) : ℚ)),
   ("Rajasthan", ((⌊(80000000 : ℚ) / (9 / 2)⌋ : ℤ) : ℚ)),
   ("Karnataka", ((⌊(70000000 : ℚ) / (9 / 2)⌋ : ℤ) : ℚ)),
   ("Gujarat", ((⌊(70000000 : ℚ) / (9 / 2)⌋ : ℤ) : ℚ)),
   ("Andhra Pradesh", ((⌊(55000000 : ℚ) / (9 / 2)⌋ : ℤ) : ℚ))]

/-- Models the dictionary access at line 75: some value for a known key, and
none for the KeyError raised on a missing key. -/
def householdsLookup (s : String) : Option ℚ :=
  (households_per_state.find? fun p => p.1 == s).map Prod.snd

/-- Models line 47: the state options offered by the multiselect are the
distinct states of the full dataset. -/
def statesOptions (df : List ConsumptionRecord) : List String :=
  (df.map fun r => r.state).dedup

/-- One row of the per-state cost summary of lines 78-84. -/
structure SummaryRow where
  state : String
  total : ℚ
  households : ℚ
  avgPerHousehold : ℚ
  cost : ℚ
deriving DecidableEq

/-- Models the loop body of lines 72-84 for one selected state: total monthly
consumption, household count from the dictionary, average per household and
cost. The none result models the KeyError raised by the dictionary lookup for
a state outside the table. -/
def costSummaryRow (df_filtered : List ConsumptionRecord) (tariff : ℚ)
    (state : String) : Option SummaryRow :=
  match householdsLookup state with
  | none => none
  | some h =>
    let total := ((df_filtered.filter fun r => r.state == state).map fun r => r.kwh).sum
    some { state := state, total := total, households := h,
           avgPerHousehold := total / h, cost := total / h * tariff }

/-- The opening part of the email body of line 121, with the state name and
the formatted average interpolated. -/
def introPart (state fmtAvg : String) : String :=
  "Hello,\n\nPlease find attached the electricity forecast for " ++ state ++
    " for Jul–Dec 2025.\n\nAverage Daily Forecast: " ++ fmtAvg ++ " kWh.\n"

/-- The alert line of line 123, with the formatted threshold interpolated. -/
def alertPart (fmtThr : String) : String :=
  "⚠️ Alert: Forecasted load exceeds your threshold of " ++ fmtThr ++ " kWh!\n"

/-- The closing part of the email body of line 124. -/
def signaturePart : String :=
  "\nRegards,\nSmart Meter Analyzer"

/-- Models lines 121-124: the notification body, with the alert line appended
exactly when the mean forecast exceeds the threshold. The interpolated
renderings of the average and the threshold are passed as strings. -/
def composeBody (state fmtAvg fmtThr : String) (avgf threshold : ℚ) : String :=
  introPart state fmtAvg ++
    (if threshold < avgf then alertPart fmtThr else "") ++ signaturePart

/-- A 14-observation history covering January 1 to January 14, 2025. -/
def jan14_history : List (Date × ℚ) :=
  (futureDates ⟨2024, 12, 31⟩ 14).map fun d => (d, 100)

/-- A 14-observation history covering June 17 to June 30, 2025, matching the
shape of the app's Jan-Jun 2025 dataset. -/
def june14_history : List (Date × ℚ) :=
  (futureDates ⟨2025, 6, 16⟩ 14).map fun d => (d, 50)

/-- A 5-day consumption table for a single state. -/
def delhi5 : List ConsumptionRecord :=
  [⟨⟨2025, 1, 1⟩, "Delhi", 10⟩, ⟨⟨2025, 1, 2⟩, "Delhi", 11⟩, ⟨⟨2025, 1, 3⟩, "Delhi", 12⟩,
   ⟨⟨2025, 1, 4⟩, "Delhi", 13⟩, ⟨⟨2025, 1, 5⟩, "Delhi", 14⟩]

/-- A one-row consumption table whose state is outside the households table. -/
def wTable : List ConsumptionRecord :=
  [⟨⟨2025, 1, 1⟩, "Delhi", 5⟩]

/-- A two-point anomaly-detection window. -/
def wWin : List (Date × ℚ) :=
  [(⟨2025, 1, 1⟩, 0), (⟨2025, 1, 2⟩, 100)]

/-- The labelled rows produced on wWin when the outlier score is the raw
value. -/
def wRows : List (Date × ℚ × ℤ) :=
  [(⟨2025, 1, 1⟩, (0 : ℚ), (-1 : ℤ)), (⟨2025, 1, 2⟩, (100 : ℚ), (1 : ℤ))]

set_option maxRecDepth 8192

/-- Every date is strictly before the following calendar day. -/
lemma Date.lt_nextDate (d : Date) : Date.lt d (nextDate d) := by
  unfold nextDate Date.lt
  split_ifs with h1 h2 <;> simp

/-- Strict calendar order is transitive. -/
lemma Date.lt_trans' {a b c : Date} (h1 : Date.lt a b) (h2 : Date.lt b c) :
    Date.lt a c := by
  unfold Date.lt at h1 h2 ⊢
  omega

/-- The run of future dates has exactly the requested length. -/
lemma length_futureDates (n : ℕ) (d : Date) : (futureDates d n).length = n := by
  induction n generalizing d with
  | zero => rfl
  | succ n ih => simp [futureDates, ih]

/-- Every generated future date lies strictly after the starting date. -/
lemma lt_of_mem_futureDates (n : ℕ) (d : Date) :
    ∀ x ∈ futureDates d n, Date.lt d x := by
  induction n generalizing d with
  | zero => simp [futureDates]
  | succ n ih =>
    intro x hx
    rw [futureDates] at hx
    rcases List.mem_cons.mp hx with h | h
    · rw [h]; exact Date.lt_nextDate d
    · exact Date.lt_trans' (Date.lt_nextDate d) (ih (nextDate d) x h)

/-- The generated future dates are strictly increasing, hence duplicate
free. -/
lemma pairwise_futureDates (n : ℕ) (d : Date) :
    List.Pairwise Date.lt (futureDates d n) := by
  induction n generalizing d with
  | zero => simp [futureDates]
  | succ n ih =>
    rw [futureDates]
    exact List.Pairwise.cons (lt_of_mem_futureDates n (nextDate d)) (ih (nextDate d))

/-- Consecutive generated future dates are consecutive calendar days. -/
lemma chain'_futureDates : ∀ (n : ℕ) (d : Date),
    List.Chain' (fun a b => b = nextDate a) (futureDates d n)
  | 0, _ => by simp [futureDates]
  | 1, _ => by simp [futureDates]
  | (n + 2), d => by
    have ih := chain'_futureDates (n + 1) (nextDate d)
    rw [futureDates] at ih
    rw [futureDates, futureDates]
    exact List.chain'_cons.mpr ⟨rfl, ih⟩

/-- The first generated future date is the day after the starting date. -/
lemma head?_futureDates (n : ℕ) (d : Date) :
    (futureDates d (n + 1)).head? = some (nextDate d) := rfl

/-- Projecting the dates out of the filtered forecast rows yields the months
filter applied to the dates themselves. -/
lemma map_fst_filter_month (g : Date → ℚ) (dates : List Date) :
    ((dates.map fun d => (d, g d)).filter fun r => decide (6 < r.1.month)).map Prod.fst
      = dates.filter fun d => decide (6 < d.month) := by
  induction dates with
  | nil => rfl
  | cons d ds ih =>
    by_cases h : 6 < d.month
    · simp [List.filter_cons, h, ih]
    · simp [List.filter_cons, h, ih]

/-- Mapping the date and value back out of the zipped label rows returns the
window. -/
lemma zipWith_pair_fst (w : List (Date × ℚ)) (ls : List ℤ) (h : ls.length = w.length) :
    (List.zipWith (fun p l => (p.1, p.2, l)) w ls).map (fun r => (r.1, r.2.1)) = w := by
  induction w generalizing ls with
  | nil => simp
  | cons a as ih =>
    cases ls with
    | nil => simp at h
    | cons b bs =>
      simp only [List.length_cons] at h
      simp [ih bs (by omega)]

/-- Mapping the label out of the zipped label rows returns the label list. -/
lemma zipWith_pair_third (w : List (Date × ℚ)) (ls : List ℤ) (h : ls.length = w.length) :
    (List.zipWith (fun p l => (p.1, p.2, l)) w ls).map (fun r => r.2.2) = ls := by
  induction w generalizing ls with
  | nil => cases ls with
    | nil => simp
    | cons b bs => simp at h
  | cons a as ih =>
    cases ls with
    | nil => simp
    | cons b bs =>
      simp only [List.length_cons] at h
      simp [ih bs (by omega)]

/-- On a nonempty window, the anomaly step succeeds and returns the window
rows zipped with the thresholded score labels. -/
lemma anomalyRows_ok (score : List ℚ → List ℚ) (w : List (Date × ℚ)) (hw : w ≠ []) :
    anomalyRows score w =
      Except.ok (List.zipWith (fun p l => (p.1, p.2, l)) w
        ((score (w.map Prod.snd)).map fun s =>
          if s < percentile (100 * anomalyParams.contamination) (score (w.map Prod.snd))
          then (-1 : ℤ) else 1)) := by
  have hne : (w.map Prod.snd).isEmpty = false := by
    cases w with
    | nil => exact absurd rfl hw
    | cons a as => rfl
  unfold anomalyRows IsolationForest.fit_predict
  rw [hne]
  rfl

/-- C2 counterexample: on a series of 5 observations (fewer than 14), the fit
step does not fail at all, let alone with an InsufficientData error: it
proceeds, because the code performs no minimum-length validation beyond the
library's own 2-row check. -/
theorem prophet_fit_no_insufficient_data_cex :
    (ts delhi5 "Delhi").length = 5 ∧ (ts delhi5 "Delhi").length < 14 ∧
      (Prophet.fit (ts delhi5 "Delhi")).isOk = true := by
  decide

/-- C2 amended: the fit step succeeds exactly when the series has at least 2
observations; below that it fails with the library ValueError message, not
with an InsufficientData error, and the code adds no 14-observation check. -/
theorem prophet_fit_min_two_rows (history : List (Date × ℚ)) :
    ((Prophet.fit history).isOk = true ↔ 2 ≤ history.length) ∧
      (history.length < 2 →
        Prophet.fit history = Except.error "Dataframe has less than 2 non-NaN rows.") := by
  constructor
  · unfold Prophet.fit
    by_cases h : history.length < 2
    · rw [if_pos h]
      simp only [Except.isOk]
      constructor
      · intro hfalse
        cases hfalse
      · intro hlen
        omega
    · rw [if_neg h]
      simp only [Except.isOk]
      constructor
      · intro _
        omega
      · intro _
        rfl
  · intro h
    unfold Prophet.fit
    rw [if_pos h]

/-- C2 witness: the empty series (the one an unknown state produces) makes
the fit step fail with the library error. -/
theorem prophet_fit_min_two_rows_witness :
    Prophet.fit ([] : List (Date × ℚ)) =
      Except.error "Dataframe has less than 2 non-NaN rows." :=
  (prophet_fit_min_two_rows []).2 (by decide)

/-- C4: the series built for a state contains the image of every record of
that state from the full table, contains nothing but records of that state,
and is empty when the state is absent from the table. -/
theorem ts_full_history (df : List ConsumptionRecord) (s : String) :
    (∀ r ∈ df, r.state = s → (r.date, r.kwh) ∈ ts df s) ∧
      (∀ p ∈ ts df s, ∃ r, r ∈ df ∧ r.state = s ∧ p = (r.date, r.kwh)) ∧
      ((∀ r ∈ df, r.state ≠ s) → ts df s = []) := by
  refine ⟨?_, ?_, ?_⟩
  · intro r hr hs
    unfold ts
    exact List.mem_map.mpr ⟨r, List.mem_filter.mpr ⟨hr, by simp [hs]⟩, rfl⟩
  · intro p hp
    unfold ts at hp
    obtain ⟨r, hrf, hre⟩ := List.mem_map.mp hp
    obtain ⟨hrdf, hrs⟩ := List.mem_filter.mp hrf
    exact ⟨r, hrdf, by simpa using hrs, hre.symm⟩
  · intro h
    have hnil : df.filter (fun r => r.state == s) = [] :=
      List.filter_eq_nil_iff.mpr (fun r hr => by simpa using h r hr)
    unfold ts
    rw [hnil]
    rfl

/-- C4 witness: on a one-row table, the single record of its state appears in
the built series, and an absent state yields the empty series. -/
theorem ts_full_history_witness :
    ((⟨2025, 1, 1⟩ : Date), (5 : ℚ)) ∈ ts wTable "Delhi" ∧ ts wTable "Punjab" = [] :=
  ⟨(ts_full_history wTable "Delhi").1 ⟨⟨2025, 1, 1⟩, "Delhi", 5⟩ (by decide) rfl,
   (ts_full_history wTable "Punjab").2.2 (by decide)⟩

/-- C8: the report mean is the arithmetic mean of the forecast values when
the filtered forecast is nonempty, and the defined pandas default NaN
(modelled as none), not a division error, when it is empty. -/
theorem report_mean_arithmetic (g : Date → ℚ) (history : List (Date × ℚ)) :
    (forecast_filtered g history 184 ≠ [] →
      avg_forecast g history =
        some (((forecast_filtered g history 184).map Prod.snd).sum /
          ((forecast_filtered g history 184).length : ℚ))) ∧
      (forecast_filtered g history 184 = [] → avg_forecast g history = none) := by
  constructor
  · intro h
    unfold avg_forecast seriesMean
    cases hfe : forecast_filtered g history 184 with
    | nil => exact absurd hfe h
    | cons a as =>
      simp
  · intro h
    unfold avg_forecast seriesMean
    rw [h]
    rfl

/-- C8 witness: the empty history produces an empty filtered forecast, whose
report mean is the defined default rather than an error. -/
theorem report_mean_arithmetic_witness :
    avg_forecast (fun _ => (0 : ℚ)) [] = none :=
  (report_mean_arithmetic (fun _ => 0) []).2 rfl

/-- C9: the composed notification body carries the alert line precisely when
the mean forecast strictly exceeds the threshold. -/
theorem alert_iff_threshold_exceeded (state fmtAvg fmtThr : String) (avgf threshold : ℚ) :
    composeBody state fmtAvg fmtThr avgf threshold
        = introPart state fmtAvg ++ alertPart fmtThr ++ signaturePart
      ↔ threshold < avgf := by
  constructor
  · intro h
    by_contra hc
    unfold composeBody at h
    rw [if_neg hc] at h
    have hlen := congrArg String.length h
    rw [String.length_append, String.length_append, String.length_append,
      String.length_append] at hlen
    have h0 : ("" : String).length = 0 := rfl
    have ha : 0 < (alertPart fmtThr).length := by
      unfold alertPart
      rw [String.length_append, String.length_append]
      have hp : 0 < ("⚠️ Alert: Forecasted load exceeds your threshold of " : String).length := by
        decide
      omega
    omega
  · intro h
    unfold composeBody
    rw [if_pos h]

/-- C10: a selected state outside the hardcoded 10-entry households table
makes the per-household summary step fail with a KeyError (modelled as none),
even though the state can be offered for selection from the dataset; the
table holds exactly 10 states. -/
theorem household_lookup_keyerror (df : List ConsumptionRecord) (tariff : ℚ)
    (s : String) (_hsel : s ∈ statesOptions df)
    (hmiss : ∀ p ∈ households_per_state, p.1 ≠ s) :
    costSummaryRow df tariff s = none ∧ households_per_state.length = 10 := by
  constructor
  · have hfind : households_per_state.find? (fun p => p.1 == s) = none :=
      List.find?_eq_none.mpr (fun p hp => by simpa using hmiss p hp)
    unfold costSummaryRow householdsLookup
    rw [hfind]
    rfl
  · rfl

/-- C10 witness: the state Delhi appears in a dataset, is offered for
selection, and crashes the summary because it is not one of the 10 hardcoded
states. -/
theorem household_lookup_keyerror_witness :
    costSummaryRow wTable 5 "Delhi" = none ∧ households_per_state.length = 10 :=
  household_lookup_keyerror wTable 5 "Delhi" (by decide) (by decide)

/-- C5 counterexample: on the empty input window (reachable when the selected
state has no rows in the analysed month) the detector does not return a
labelling with one label per observation, that is the empty labelling: it
fails with the library validation error instead. -/
theorem anomaly_empty_window_no_labelling_cex :
    (anomalyRows (fun xs => xs) []).isOk = false ∧
      anomalyRows (fun xs => xs) [] ≠ Except.ok [] := by
  constructor
  · rfl
  · intro h
    simp [anomalyRows, IsolationForest.fit_predict, Except.map] at h

/-- C5 amended: on every nonempty window, and with the library guarantee that
the (seeded) forest scores one value per sample, the detector returns exactly
one labelled row per input observation, preserving input order, dates and
values; the detector is constructed per invocation with contamination 0.03
and seed 42, and its labels depend only on the single consumption-value
column. The empty window is excluded: there the code raises. -/
theorem anomaly_one_label_per_row (score : List ℚ → List ℚ)
    (hscore : ∀ xs, (score xs).length = xs.length)
    (w : List (Date × ℚ)) (hw : w ≠ []) :
    ∃ rows, anomalyRows score w = Except.ok rows ∧
      rows.length = w.length ∧
      rows.map (fun r => (r.1, r.2.1)) = w ∧
      anomalyParams.contamination = 3 / 100 ∧
      anomalyParams.random_state = 42 ∧
      ∀ w' : List (Date × ℚ), w'.map Prod.snd = w.map Prod.snd →
        ∃ rows', anomalyRows score w' = Except.ok rows' ∧
          rows'.map (fun r => r.2.2) = rows.map (fun r => r.2.2) := by
  have hlablen : ((score (w.map Prod.snd)).map fun s =>
      if s < percentile (100 * anomalyParams.contamination) (score (w.map Prod.snd))
      then (-1 : ℤ) else 1).length = w.length := by
    rw [List.length_map, hscore, List.length_map]
  refine ⟨_, anomalyRows_ok score w hw, ?_, ?_, rfl, rfl, ?_⟩
  · rw [List.length_zipWith, hlablen, Nat.min_self]
  · exact zipWith_pair_fst w _ hlablen
  · intro w' hw'
    have hw'ne : w' ≠ [] := by
      intro hnil
      rw [hnil] at hw'
      cases w with
      | nil => exact hw rfl
      | cons a as => simp at hw'
    have hrok := anomalyRows_ok score w' hw'ne
    rw [hw'] at hrok
    have hlen' : ((score (w.map Prod.snd)).map fun s =>
        if s < percentile (100 * anomalyParams.contamination) (score (w.map Prod.snd))
        then (-1 : ℤ) else 1).length = w'.length := by
      rw [hlablen]
      have hc := congrArg List.length hw'
      rw [List.length_map, List.length_map] at hc
      omega
    exact ⟨_, hrok, by rw [zipWith_pair_third w' _ hlen', zipWith_pair_third w _ hlablen]⟩

/-- C5 witness: on a concrete two-point window with the identity score, the
detector returns one labelled row per observation. -/
theorem anomaly_one_label_per_row_witness :
    ∃ rows, anomalyRows (fun xs => xs) wWin = Except.ok rows ∧
      rows.length = wWin.length := by
  obtain ⟨rows, h1, h2, -⟩ :=
    anomaly_one_label_per_row (fun xs => xs) (fun _ => rfl) wWin (by decide)
  exact ⟨rows, h1, h2⟩

/-- C6: every anomaly indicator the detector attaches is one of the two
values -1 and 1 (so it carries exactly one bit, anomaly or not), and the
label column is derived from the continuous scores by thresholding at the
percentile determined by the fixed contamination rate. -/
theorem anomaly_flag_from_threshold (score : List ℚ → List ℚ)
    (hscore : ∀ xs, (score xs).length = xs.length)
    (w : List (Date × ℚ)) (rows : List (Date × ℚ × ℤ))
    (h : anomalyRows score w = Except.ok rows) :
    (∀ r ∈ rows, r.2.2 = -1 ∨ r.2.2 = 1) ∧
      rows.map (fun r => r.2.2) =
        (score (w.map Prod.snd)).map
          (fun s => if s < percentile (100 * anomalyParams.contamination) (score (w.map Prod.snd))
            then (-1 : ℤ) else 1) := by
  have hw : w ≠ [] := by
    intro hnil
    rw [hnil] at h
    simp [anomalyRows, IsolationForest.fit_predict, Except.map] at h
  rw [anomalyRows_ok score w hw] at h
  have hrows : rows = List.zipWith (fun p l => (p.1, p.2, l)) w
      ((score (w.map Prod.snd)).map fun s =>
        if s < percentile (100 * anomalyParams.contamination) (score (w.map Prod.snd))
        then (-1 : ℤ) else 1) := by
    injection h with h'
    exact h'.symm
  have hlablen : ((score (w.map Prod.snd)).map fun s =>
      if s < percentile (100 * anomalyParams.contamination) (score (w.map Prod.snd))
      then (-1 : ℤ) else 1).length = w.length := by
    rw [List.length_map, hscore, List.length_map]
  have h3 : rows.map (fun r => r.2.2) =
      (score (w.map Prod.snd)).map fun s =>
        if s < percentile (100 * anomalyParams.contamination) (score (w.map Prod.snd))
        then (-1 : ℤ) else 1 := by
    rw [hrows]
    exact zipWith_pair_third w _ hlablen
  refine ⟨?_, h3⟩
  intro r hr
  have hmem : r.2.2 ∈ (score (w.map Prod.snd)).map fun s =>
      if s < percentile (100 * anomalyParams.contamination) (score (w.map Prod.snd))
      then (-1 : ℤ) else 1 := by
    rw [← h3]
    exact List.mem_map_of_mem _ hr
  obtain ⟨sv, _, hif⟩ := List.mem_map.mp hmem
  by_cases hc : sv < percentile (100 * anomalyParams.contamination) (score (w.map Prod.snd))
  · left
    rw [← hif, if_pos hc]
  · right
    rw [← hif, if_neg hc]

/-- C6 witness: on a concrete two-point window the attached indicators of the
two produced rows are two-valued: -1 for the low outlying value and 1 for the
normal one. -/
theorem anomaly_flag_from_threshold_witness :
    (((⟨2025, 1, 1⟩ : Date), (0 : ℚ), (-1 : ℤ)).2.2 = -1 ∨
        ((⟨2025, 1, 1⟩ : Date), (0 : ℚ), (-1 : ℤ)).2.2 = 1) ∧
      (((⟨2025, 1, 2⟩ : Date), (100 : ℚ), (1 : ℤ)).2.2 = -1 ∨
        ((⟨2025, 1, 2⟩ : Date), (100 : ℚ), (1 : ℤ)).2.2 = 1) :=
  have h := (anomaly_flag_from_threshold (fun xs => xs) (fun _ => rfl) wWin wRows
    (by norm_num [anomalyRows, IsolationForest.fit_predict, percentile, sortQ,
      insertSorted, floorNat, anomalyParams, Except.map, wWin, wRows])).1
  ⟨h _ (by decide), h _ (by decide)⟩

/-- C7 counterexample: on the empty window (produced when the selected state
has no rows in the analysed month), the anomaly step does not return a
labelling: it fails with the library validation error, i.e. it crashes. -/
theorem anomaly_empty_window_crash_cex :
    anomalyRows (fun xs => xs) [] =
      Except.error "Found array with 0 sample(s) while a minimum of 1 is required." := rfl

/-- C7 amended: on every nonempty window, including windows of fewer than 10
points, the anomaly step does not crash and returns one label per point; only
the empty window makes it raise. -/
theorem anomaly_small_window_no_crash (score : List ℚ → List ℚ)
    (hscore : ∀ xs, (score xs).length = xs.length)
    (w : List (Date × ℚ)) (hw : w ≠ []) :
    ∃ rows, anomalyRows score w = Except.ok rows ∧ rows.length = w.length := by
  refine ⟨_, anomalyRows_ok score w hw, ?_⟩
  rw [List.length_zipWith, List.length_map, hscore, List.length_map, Nat.min_self]

/-- C7 witness: a degenerate one-point window is labelled without crashing. -/
theorem anomaly_small_window_no_crash_witness :
    ∃ rows, anomalyRows (fun xs => xs) [(⟨2025, 1, 5⟩, (7 : ℚ))] = Except.ok rows ∧
      rows.length = 1 :=
  anomaly_small_window_no_crash (fun xs => xs) (fun _ => rfl) _ (by decide)

/-- C1 counterexample: on a strictly increasing 14-observation history
covering January 1 to 14, 2025 with horizon 184, the month-greater-than-6
filter of line 102 returns 17 points, not 184: the 167 forecast days falling
in February through June are discarded even though they are strictly after
the last historical date. -/
theorem forecast_filtered_wrong_count_cex :
    14 ≤ jan14_history.length ∧
      List.Pairwise (fun p q : Date × ℚ => Date.lt p.1 q.1) jan14_history ∧
      (forecast_filtered (fun _ => 0) jan14_history 184).length = 17 ∧
      ¬(forecast_filtered (fun _ => 0) jan14_history 184).length = 184 := by
  refine ⟨by decide, ?_, by decide, by decide⟩
  exact (List.pairwise_map).mpr (pairwise_futureDates 14 ⟨2024, 12, 31⟩)

/-- C1 amended: when every historical date falls in months 1 to 6 and the
last historical date is June 30, 2025 (the shape of the app's dataset), the
hardcoded 184-day pipeline returns exactly 184 points, namely July 1 through
December 31, 2025: strictly after the last historical date, strictly
increasing with no duplicates, and a contiguous run of consecutive days
starting the day after the history ends. -/
theorem forecast_filter_strictly_future_amended (g : Date → ℚ)
    (history : List (Date × ℚ)) (_hlen : 14 ≤ history.length)
    (hmon : ∀ p ∈ history, p.1.month ≤ 6)
    (hmax : maxDate (history.map Prod.fst) = some ⟨2025, 6, 30⟩) :
    (forecast_filtered g history 184).map Prod.fst = futureDates ⟨2025, 6, 30⟩ 184 ∧
      (forecast_filtered g history 184).length = 184 ∧
      List.Pairwise (fun p q : Date × ℚ => Date.lt p.1 q.1) (forecast_filtered g history 184) ∧
      (∀ p ∈ forecast_filtered g history 184, Date.lt ⟨2025, 6, 30⟩ p.1) ∧
      List.Chain' (fun p q : Date × ℚ => q.1 = nextDate p.1) (forecast_filtered g history 184) ∧
      (forecast_filtered g history 184).head?.map Prod.fst = some (nextDate ⟨2025, 6, 30⟩) := by
  have hdates : Prophet.make_future_dataframe history 184
      = history.map Prod.fst ++ futureDates ⟨2025, 6, 30⟩ 184 := by
    unfold Prophet.make_future_dataframe
    rw [hmax]
  have hfst : (forecast_filtered g history 184).map Prod.fst
      = futureDates ⟨2025, 6, 30⟩ 184 := by
    unfold forecast_filtered
    rw [hdates]
    simp only [Prophet.predict]
    rw [map_fst_filter_month, List.filter_append]
    have h1 : (history.map Prod.fst).filter (fun d => decide (6 < d.month)) = [] := by
      apply List.filter_eq_nil_iff.mpr
      intro d hd
      obtain ⟨p, hp, hpd⟩ := List.mem_map.mp hd
      subst hpd
      simp only [decide_eq_true_eq]
      have := hmon p hp
      omega
    have h2 : (futureDates ⟨2025, 6, 30⟩ 184).filter (fun d => decide (6 < d.month))
        = futureDates ⟨2025, 6, 30⟩ 184 := by decide
    rw [h1, h2, List.nil_append]
  refine ⟨hfst, ?_, ?_, ?_, ?_, ?_⟩
  · have hl := congrArg List.length hfst
    rw [List.length_map, length_futureDates] at hl
    exact hl
  · have hp := pairwise_futureDates 184 ⟨2025, 6, 30⟩
    rw [← hfst] at hp
    exact (List.pairwise_map).mp hp
  · intro p hp
    have hmem : p.1 ∈ (forecast_filtered g history 184).map Prod.fst :=
      List.mem_map_of_mem _ hp
    rw [hfst] at hmem
    exact lt_of_mem_futureDates 184 ⟨2025, 6, 30⟩ p.1 hmem
  · have hc := chain'_futureDates 184 ⟨2025, 6, 30⟩
    rw [← hfst] at hc
    exact (List.chain'_map Prod.fst).mp hc
  · rw [← List.head?_map, hfst]
    exact head?_futureDates 183 ⟨2025, 6, 30⟩

/-- C1 witness: on a 14-day June 2025 history the pipeline returns exactly
the 184 dates July 1 through December 31, 2025. -/
theorem forecast_filter_strictly_future_witness :
    (forecast_filtered (fun _ => (0 : ℚ)) june14_history 184).length = 184 ∧
      (forecast_filtered (fun _ => (0 : ℚ)) june14_history 184).map Prod.fst
        = futureDates ⟨2025, 6, 30⟩ 184 :=
  have h := forecast_filter_strictly_future_amended (fun _ => 0) june14_history
    (by decide) (by decide) (by decide)
  ⟨h.2.1, h.1⟩

end SmartMeter
